import Mathlib

/-!
Shallow embedding of `src/github_analyzer.py` (class `GitHubProfileAnalyzer`).

The mutable analyzer attributes `user_data` and `repos_data` start as
`None` and are set by the fetch methods; we model them as `Option` values
passed explicitly.  Python truthiness tests (`if not self.repos_data`,
`if repo["language"]`, `if not language_stats`) are embedded exactly:
`None` and empty containers and the empty string are falsy.

The Python builtin `sorted(..., key=..., reverse=True)` is a stable sort
that keeps the original order of elements with equal keys.  The output of
a stable sort is the unique permutation that is sorted by the key with
ties in original order, so any stable sort is an exact embedding; we use
`List.insertionSort` with the relation `r a b := key b ≤ key a`, which is
stable with exactly that tie behaviour.
-/

namespace GithubAnalyzer

/-- A repository record, with the fields of the GitHub JSON object that
`github_analyzer.py` reads: `name`, `language` (a string or JSON null,
modelled as `Option String`), `stargazers_count`, `forks_count`,
`html_url`. -/
structure Repo where
  name : String
  language : Option String
  stargazers_count : Nat
  forks_count : Nat
  html_url : String
deriving Repr, DecidableEq

/-- The user record fetched by `fetch_user_data`, restricted to the fields
`generate_report` reads.  `name` and `bio` are read with
`self.user_data.get(key, "N/A")`; `none` models the key being absent from
the fetched dictionary, so that `.get` falls back to the default. -/
structure UserData where
  name : Option String
  bio : Option String
  public_repos : Nat
  followers : Nat
  following : Nat
  created_at : String
deriving Repr, DecidableEq

/-- Python truthiness of the JSON `language` value: `None` and the empty
string are falsy, every other string is truthy
(`if repo["language"]:`, line 65). -/
def langTruthy : Option String → Bool
  | none => false
  | some s => s != ""

/-- One step of the `defaultdict(int)` counting loop: increment the count
of `lang`, inserting it at the end on first occurrence (Python dicts
preserve insertion order). -/
def bump : List (String × Nat) → String → List (String × Nat)
  | [], lang => [(lang, 1)]
  | (k, v) :: rest, lang =>
      if k = lang then (k, v + 1) :: rest else (k, v) :: bump rest lang

/-- One iteration of the counting loop of `analyze_languages`
(lines 64-66): `if repo["language"]: language_stats[repo["language"]] += 1`,
where `None` and the empty string are falsy. -/
def countStep (st : List (String × Nat)) (r : Repo) : List (String × Nat) :=
  match r.language with
  | some s => if s = "" then st else bump st s
  | none => st

/-- The counting loop of `analyze_languages` (lines 62-66): fold over the
repositories, counting each truthy `language` value. -/
def language_counts (repos : List Repo) : List (String × Nat) :=
  repos.foldl countStep []

/-- Embedding of `sorted(language_stats.items(), key=lambda item: item[1],
reverse=True)`:
stable descending sort of the association list by count. -/
def sortByCountDesc (stats : List (String × Nat)) : List (String × Nat) :=
  List.insertionSort (fun a b => b.2 ≤ a.2) stats

/-- Embedding of `analyze_languages` (lines 57-68).  `repos_data` is the attribute set
by `fetch_repos`; `if not self.repos_data: return None` fires when it is
`None` or the empty list. -/
def analyze_languages (repos_data : Option (List Repo)) :
    Option (List (String × Nat)) :=
  match repos_data with
  | some (r :: rs) => some (sortByCountDesc (language_counts (r :: rs)))
  | _ => none

/-- Embedding of `get_most_starred_repos` (lines 70-76): guard on falsy `repos_data`,
then `sorted(..., key=lambda x: x["stargazers_count"], reverse=True)[:n]`. -/
def get_most_starred_repos (repos_data : Option (List Repo)) (n : Nat) :
    Option (List Repo) :=
  match repos_data with
  | some (r :: rs) =>
      some ((List.insertionSort
        (fun a b => b.stargazers_count ≤ a.stargazers_count)
        (r :: rs)).take n)
  | _ => none

/-- Sum of the counts of a language-stats association list. -/
def statsSum (stats : List (String × Nat)) : Nat :=
  (stats.map Prod.snd).sum

/-- The `profile_info` sub-record of the report (lines 85-92). -/
structure ProfileInfo where
  name : String
  bio : String
  public_repos : Nat
  followers : Nat
  following : Nat
  created_at : String
deriving Repr, DecidableEq

/-- One entry of `most_starred_repos` in the report (lines 95-100). -/
structure ReportRepo where
  name : String
  stars : Nat
  forks : Nat
  url : String
deriving Repr, DecidableEq

/-- The report dictionary built by `generate_report` (lines 83-104). -/
structure Report where
  username : String
  profile_info : ProfileInfo
  language_stats : List (String × Nat)
  most_starred_repos : List ReportRepo
  analysis_date : String
deriving Repr, DecidableEq

/-- Embedding of `self.user_data.get(key, "N/A")` when `none` models an
absent key. -/
def getOrNA (v : Option String) : String :=
  v.getD "N/A"

/-- Embedding of `generate_report` (lines 78-106).  The guard
`if not self.user_data or not self.repos_data: return None` fires when
either attribute is `None` or the repository list is empty.  Under the
guard, `repos_data` is a non-empty list, so `analyze_languages` and
`get_most_starred_repos` (called with its default `n=5`) return values,
extracted here with `getD`.  `now` stands for
`datetime.now().strftime(...)`. -/
def generate_report (username : String) (user_data : Option UserData)
    (repos_data : Option (List Repo)) (now : String) : Option Report :=
  match user_data, repos_data with
  | some u, some (r :: rs) =>
      some
        { username := username
          profile_info :=
            { name := getOrNA u.name
              bio := getOrNA u.bio
              public_repos := u.public_repos
              followers := u.followers
              following := u.following
              created_at := u.created_at }
          language_stats := (analyze_languages (some (r :: rs))).getD []
          most_starred_repos :=
            ((get_most_starred_repos (some (r :: rs)) 5).getD []).map
              (fun repo =>
                { name := repo.name
                  stars := repo.stargazers_count
                  forks := repo.forks_count
                  url := repo.html_url })
          analysis_date := now }
  | _, _ => none

/-- Rendering of an optional value inside a Python f-string: `None`
prints as the literal string `"None"`. -/
def pyStr : Option String → String
  | none => "None"
  | some s => s

/-- The request headers built in `__init__` (lines 15-19):
`Authorization` set to `f"token {self.token}"` plus the `Accept` header,
where `self.token = os.getenv("GITHUB_TOKEN")` is `none` when the environment
variable is absent. -/
def headers (token : Option String) : List (String × String) :=
  [("Authorization", "token " ++ pyStr token),
   ("Accept", "application/vnd.github.v3+json")]

/-- A JSON value as built by the Python code and written by `json.dump`.
Object fields keep their insertion order, as Python dicts and `json.dump`
and `json.load` all do. -/
inductive Json where
  | null
  | str (s : String)
  | num (n : Nat)
  | arr (xs : List Json)
  | obj (fields : List (String × Json))

/-- Observable side effects of the exporter, renderer and HTTP client. -/
inductive Effect where
  | httpGetUser
  | httpGetReposPage (page : Nat)
  | writeJson (filename : String) (content : Json) (indent : Nat)
  | writePng (filename : String)
  | printNote (msg : String)

/-- Serialization of the report dictionary, field for field in the order
`generate_report` inserts them. -/
def reportToJson (r : Report) : Json :=
  .obj
    [("username", .str r.username),
     ("profile_info", .obj
        [("name", .str r.profile_info.name),
         ("bio", .str r.profile_info.bio),
         ("public_repos", .num r.profile_info.public_repos),
         ("followers", .num r.profile_info.followers),
         ("following", .num r.profile_info.following),
         ("created_at", .str r.profile_info.created_at)]),
     ("language_stats", .obj
        (r.language_stats.map (fun p => (p.1, .num p.2)))),
     ("most_starred_repos", .arr
        (r.most_starred_repos.map (fun rr => .obj
           [("name", .str rr.name),
            ("stars", .num rr.stars),
            ("forks", .num rr.forks),
            ("url", .str rr.url)]))),
     ("analysis_date", .str r.analysis_date)]

/-- Embedding of `export_report` (lines 108-117): for format `json`, write the report
with `indent=4` to `github_report_<username>_<timestamp>.json` and print
a confirmation; for any other format, print a notice and write nothing.
`now` stands for `datetime.now().strftime("%Y%m%d_%H%M%S")`. -/
def export_report (username now : String) (report : Json)
    (format : String) : List Effect :=
  let filename := "github_report_" ++ username ++ "_" ++ now
  if format = "json" then
    [Effect.writeJson (filename ++ ".json") report 4,
     Effect.printNote ("Report exported as " ++ filename ++ ".json")]
  else
    [Effect.printNote "Only JSON export is currently supported"]

/-- Embedding of `visualize_languages` (lines 119-137): no-op on falsy
`language_stats`, otherwise draws a pie chart and saves
`github_languages_<username>.png`. -/
def visualize_languages (username : String)
    (language_stats : List (String × Nat)) : List Effect :=
  if language_stats.isEmpty then []
  else
    [Effect.writePng ("github_languages_" ++ username ++ ".png"),
     Effect.printNote ("Language visualization saved as github_languages_"
       ++ username ++ ".png")]

/-- Embedding of `visualize_stars` (lines 139-158): no-op on a falsy
`starred_repos`, otherwise draws a bar chart and saves
`github_stars_<username>.png`. -/
def visualize_stars (username : String)
    (starred_repos : List ReportRepo) : List Effect :=
  if starred_repos.isEmpty then []
  else
    [Effect.writePng ("github_stars_" ++ username ++ ".png"),
     Effect.printNote ("Stars visualization saved as github_stars_"
       ++ username ++ ".png")]

/-- The remote server as the pipeline observes it: the response to
`GET /users/{username}` (`none` models a non-200 status), and the
responses to `GET /users/{username}/repos?per_page=100&page=k` for
`k = 1, 2, …` as a finite list (`none` a non-200 status); past the end of
the list the server answers with an empty page, as GitHub does past the
last repository. -/
structure Net where
  user_resp : Option UserData
  repo_pages : List (Option (List Repo))

/-- Embedding of `fetch_user_data` (lines 24-33): one GET; on 200 store the body and
return `True`, otherwise return `False`. -/
def fetch_user_data (net : Net) : List Effect × Option UserData :=
  ([Effect.httpGetUser], net.user_resp)

/-- The `while True` pagination loop of `fetch_repos` (lines 41-52):
request page `pageNum`; a non-200 response aborts with `none`; an empty
page breaks the loop; otherwise extend the accumulated list and continue
with the next page. -/
def fetchPagesGo : List (Option (List Repo)) → Nat →
    List Effect × Option (List Repo)
  | [], pageNum => ([Effect.httpGetReposPage pageNum], some [])
  | none :: _, pageNum => ([Effect.httpGetReposPage pageNum], none)
  | some [] :: _, pageNum => ([Effect.httpGetReposPage pageNum], some [])
  | some (p :: ps) :: rest, pageNum =>
      let (evs, res) := fetchPagesGo rest (pageNum + 1)
      (Effect.httpGetReposPage pageNum :: evs,
       res.map (fun tail => (p :: ps) ++ tail))

/-- Embedding of `fetch_repos` (lines 35-55): run the pagination loop from page 1;
`none` models returning `False` without setting `repos_data`. -/
def fetch_repos (net : Net) : List Effect × Option (List Repo) :=
  fetchPagesGo net.repo_pages 1

/-- The outcome of one run of `analyze`: the returned boolean, the
observable effects in order, and the report built (if any). -/
structure RunResult where
  success : Bool
  effects : List Effect
  report : Option Report

/-- Embedding of `analyze` (lines 160-195): fetch user (return `False` on failure),
fetch repos (return `False` on failure), build the report; when a report
exists, export it and render both charts and return `True`, otherwise
return `False`. -/
def analyze (username : String) (net : Net) (now : String) : RunResult :=
  let (uevs, udata) := fetch_user_data net
  match udata with
  | none => { success := false, effects := uevs, report := none }
  | some u =>
      let (revs, rdata) := fetch_repos net
      match rdata with
      | none => { success := false, effects := uevs ++ revs, report := none }
      | some repos =>
          match generate_report username (some u) (some repos) now with
          | none =>
              { success := false, effects := uevs ++ revs, report := none }
          | some report =>
              { success := true
                effects := uevs ++ revs
                  ++ export_report username now (reportToJson report) "json"
                  ++ visualize_languages username report.language_stats
                  ++ visualize_stars username report.most_starred_repos
                report := some report }

/-- Field lookup in a JSON object, as `json.load`-produced dicts are
indexed. -/
def Json.getField (j : Json) (key : String) : Option Json :=
  match j with
  | .obj fields => fields.lookup key
  | _ => none

/-- Read a JSON value as a string. -/
def Json.asStr : Json → Option String
  | .str s => some s
  | _ => none

/-- Read a JSON value as a number. -/
def Json.asNat : Json → Option Nat
  | .num n => some n
  | _ => none

/-- Recover a language-stats association list from the fields of the
parsed `language_stats` object, in order. -/
def statsOfFields : List (String × Json) → Option (List (String × Nat))
  | [] => some []
  | (k, v) :: rest => do
      let n ← v.asNat
      let tail ← statsOfFields rest
      pure ((k, n) :: tail)

/-- Recover one entry of `most_starred_repos` from its parsed object. -/
def reportRepoOfJson (j : Json) : Option ReportRepo := do
  let name ← (← j.getField "name").asStr
  let stars ← (← j.getField "stars").asNat
  let forks ← (← j.getField "forks").asNat
  let url ← (← j.getField "url").asStr
  pure { name := name, stars := stars, forks := forks, url := url }

/-- Recover the list of starred-repo entries from the parsed array. -/
def reportReposOfJson : List Json → Option (List ReportRepo)
  | [] => some []
  | j :: rest => do
      let rr ← reportRepoOfJson j
      let tail ← reportReposOfJson rest
      pure (rr :: tail)

/-- Recover the `profile_info` record from its parsed object. -/
def profileOfJson (j : Json) : Option ProfileInfo := do
  let name ← (← j.getField "name").asStr
  let bio ← (← j.getField "bio").asStr
  let public_repos ← (← j.getField "public_repos").asNat
  let followers ← (← j.getField "followers").asNat
  let following ← (← j.getField "following").asNat
  let created_at ← (← j.getField "created_at").asStr
  pure { name := name, bio := bio, public_repos := public_repos,
         followers := followers, following := following,
         created_at := created_at }

/-- Recover a full report from the JSON value `json.load` yields for an
exported report file. -/
def reportOfJson (j : Json) : Option Report := do
  let username ← (← j.getField "username").asStr
  let profile ← profileOfJson (← j.getField "profile_info")
  let stats ←
    match ← j.getField "language_stats" with
    | .obj fields => statsOfFields fields
    | _ => none
  let starred ←
    match ← j.getField "most_starred_repos" with
    | .arr xs => reportReposOfJson xs
    | _ => none
  let analysis_date ← (← j.getField "analysis_date").asStr
  pure { username := username, profile_info := profile,
         language_stats := stats, most_starred_repos := starred,
         analysis_date := analysis_date }

/-! ### Helper lemmas about the stable descending sorts -/

theorem sortByCountDesc_pairwise (l : List (String × Nat)) :
    List.Pairwise (fun a b : String × Nat => b.2 ≤ a.2) (sortByCountDesc l) := by
  haveI : IsTotal (String × Nat) (fun a b => b.2 ≤ a.2) :=
    ⟨fun a b => Nat.le_total b.2 a.2⟩
  haveI : IsTrans (String × Nat) (fun a b => b.2 ≤ a.2) :=
    ⟨fun _ _ _ hab hbc => Nat.le_trans hbc hab⟩
  exact List.sorted_insertionSort _ l

theorem sortByCountDesc_perm (l : List (String × Nat)) :
    (sortByCountDesc l).Perm l :=
  List.perm_insertionSort _ l

theorem statsSum_sortByCountDesc (l : List (String × Nat)) :
    statsSum (sortByCountDesc l) = statsSum l :=
  ((sortByCountDesc_perm l).map Prod.snd).sum_eq

theorem statsSum_bump (st : List (String × Nat)) (lang : String) :
    statsSum (bump st lang) = statsSum st + 1 := by
  induction st with
  | nil => rfl
  | cons p rest ih =>
      obtain ⟨k, v⟩ := p
      by_cases h : k = lang
      · simp [bump, h, statsSum]
        omega
      · simp [bump, h, statsSum] at ih ⊢
        omega

theorem statsSum_foldl_countStep (repos : List Repo) (acc : List (String × Nat)) :
    statsSum (repos.foldl countStep acc) =
      statsSum acc + (repos.filter (fun r => langTruthy r.language)).length := by
  induction repos generalizing acc with
  | nil => simp
  | cons r rs ih =>
      rw [List.foldl_cons, ih]
      cases hl : r.language with
      | none => simp [countStep, hl, langTruthy]
      | some s =>
          by_cases hs : s = ""
          · simp [countStep, hl, hs, langTruthy]
          · simp [countStep, hl, hs, langTruthy, statsSum_bump]
            omega

/-! ### Concrete sample data (the worked example of the spec, section 8) -/

def goRepo : Repo := ⟨"go-tool", some "Go", 10, 2, "https://example/go-tool"⟩

def goRepo2 : Repo := ⟨"go-kit", some "Go", 5, 1, "https://example/go-kit"⟩

def rustRepo : Repo := ⟨"rust-tool", some "Rust", 20, 4, "https://example/rust-tool"⟩

/-- A repository whose `language` field is present but the empty string:
non-null, yet falsy for the Python test `if repo["language"]:`. -/
def emptyLangRepo : Repo := ⟨"untitled", some "", 0, 0, "https://example/untitled"⟩

def sampleUser : UserData :=
  { name := some "Alice Doe", bio := none, public_repos := 3, followers := 7,
    following := 4, created_at := "2015-01-01T00:00:00Z" }

/-! ### Claims -/

/-- C1, counterexample: the claim "for every repository collection,
`analyze_languages` returns a mapping whose counts sum to the number of
repositories with a non-null language" is false on the code.  A
repository whose language is the empty string is non-null but falsy, so
it is not counted: on `[emptyLangRepo]` the returned mapping sums to `0`
while one repository has a non-null language.  Moreover on the empty
collection no mapping is returned at all. -/
theorem analyze_languages_nonnull_claim_false :
    (analyze_languages (some [emptyLangRepo])).map statsSum = some 0 ∧
    (([emptyLangRepo] : List Repo).filter (fun r => r.language.isSome)).length = 1 ∧
    analyze_languages (some []) = none := by
  decide

/-- C1, amended: whenever `analyze_languages` returns a mapping, its
counts sum to the number of repositories whose language field is truthy,
i.e. a non-null, non-empty string; null and empty-string languages are
ignored. -/
theorem analyze_languages_sum_truthy (repos : List Repo)
    (stats : List (String × Nat))
    (h : analyze_languages (some repos) = some stats) :
    statsSum stats = (repos.filter (fun r => langTruthy r.language)).length := by
  cases repos with
  | nil => simp [analyze_languages] at h
  | cons r rs =>
      simp only [analyze_languages, Option.some.injEq] at h
      rw [← h, statsSum_sortByCountDesc, language_counts, statsSum_foldl_countStep]
      simp [statsSum]

/-- Witness for the amended C1 theorem at the worked example of the spec. -/
theorem analyze_languages_sum_truthy_wit :
    statsSum ((analyze_languages (some [goRepo, goRepo2, rustRepo])).getD []) =
      (([goRepo, goRepo2, rustRepo] : List Repo).filter
        (fun r => langTruthy r.language)).length :=
  analyze_languages_sum_truthy [goRepo, goRepo2, rustRepo]
    ((analyze_languages (some [goRepo, goRepo2, rustRepo])).getD []) rfl

/-- C2: whenever `get_most_starred_repos` returns a list, that list has
exactly `min n (repos.length)` entries (so never more), is sorted
non-increasing by star count, and when fewer than `n` repositories exist
it is a permutation of the whole collection, i.e. returns all of them. -/
theorem get_most_starred_repos_spec (repos l : List Repo) (n : Nat)
    (h : get_most_starred_repos (some repos) n = some l) :
    l.length = min n repos.length ∧
    List.Pairwise (fun a b : Repo => b.stargazers_count ≤ a.stargazers_count) l ∧
    (repos.length ≤ n → l.Perm repos) := by
  cases repos with
  | nil => simp [get_most_starred_repos] at h
  | cons r rs =>
      simp only [get_most_starred_repos, Option.some.injEq] at h
      rw [← h]
      refine ⟨?_, ?_, ?_⟩
      · rw [List.length_take,
          (List.perm_insertionSort
            (fun a b : Repo => b.stargazers_count ≤ a.stargazers_count)
            (r :: rs)).length_eq]
      · haveI : IsTotal Repo
            (fun a b : Repo => b.stargazers_count ≤ a.stargazers_count) :=
          ⟨fun a b => Nat.le_total b.stargazers_count a.stargazers_count⟩
        haveI : IsTrans Repo
            (fun a b : Repo => b.stargazers_count ≤ a.stargazers_count) :=
          ⟨fun _ _ _ hab hbc => Nat.le_trans hbc hab⟩
        exact (List.sorted_insertionSort _ (r :: rs)).sublist
          (List.take_sublist n _)
      · intro hle
        rw [List.take_of_length_le]
        · exact List.perm_insertionSort _ (r :: rs)
        · rw [(List.perm_insertionSort
            (fun a b : Repo => b.stargazers_count ≤ a.stargazers_count)
            (r :: rs)).length_eq]
          exact hle

/-- Witness for C2 at the worked example of the spec with `n = 2`. -/
theorem get_most_starred_repos_spec_wit :
    ((get_most_starred_repos (some [goRepo, goRepo2, rustRepo]) 2).getD []).length =
        min 2 ([goRepo, goRepo2, rustRepo] : List Repo).length ∧
    List.Pairwise (fun a b : Repo => b.stargazers_count ≤ a.stargazers_count)
      ((get_most_starred_repos (some [goRepo, goRepo2, rustRepo]) 2).getD []) ∧
    (([goRepo, goRepo2, rustRepo] : List Repo).length ≤ 2 →
      ((get_most_starred_repos (some [goRepo, goRepo2, rustRepo]) 2).getD []).Perm
        [goRepo, goRepo2, rustRepo]) :=
  get_most_starred_repos_spec [goRepo, goRepo2, rustRepo]
    ((get_most_starred_repos (some [goRepo, goRepo2, rustRepo]) 2).getD []) 2 rfl

/-- C4: with both fetches succeeded but an empty repository list,
`analyze_languages` and `get_most_starred_repos` return `none` (not an
empty mapping or list), and `generate_report` returns `none`: no report
for a user with zero repositories. -/
theorem empty_repos_yield_none (username now : String) (u : UserData) (n : Nat) :
    analyze_languages (some []) = none ∧
    get_most_starred_repos (some []) n = none ∧
    generate_report username (some u) (some []) now = none :=
  ⟨rfl, rfl, rfl⟩

/-- C6: the code always sends an `Authorization` header.  With a
credential present it is `token <value>` as the claim says, but with the
credential absent the header is still sent, carrying the literal string
`token None` (the Python rendering of an f-string over `None`) — the request is
not unauthenticated. -/
theorem authorization_credential_absent :
    (headers none).lookup "Authorization" = some "token None" ∧
    ∀ t : String, (headers (some t)).lookup "Authorization" = some ("token " ++ t) :=
  ⟨rfl, fun _ => rfl⟩

/-- C9: for any format other than `json`, `export_report` only prints a
notice and performs no file write; for format `json` it writes the
report as JSON with `indent=4` to
`github_report_<username>_<timestamp>.json`. -/
theorem export_report_format_spec (username now fmt : String) (report : Json) :
    (fmt ≠ "json" →
      export_report username now report fmt =
        [Effect.printNote "Only JSON export is currently supported"] ∧
      ∀ f c i, Effect.writeJson f c i ∉ export_report username now report fmt) ∧
    export_report username now report "json" =
      [Effect.writeJson (("github_report_" ++ username ++ "_" ++ now) ++ ".json")
         report 4,
       Effect.printNote ("Report exported as "
         ++ ("github_report_" ++ username ++ "_" ++ now) ++ ".json")] := by
  refine ⟨fun h => ⟨?_, ?_⟩, ?_⟩
  · simp [export_report, h]
  · simp [export_report, h]
  · simp [export_report]

/-- Witness for C9 at format `csv`. -/
theorem export_report_format_spec_wit :
    export_report "alice" "20240101_000000" Json.null "csv" =
      [Effect.printNote "Only JSON export is currently supported"] ∧
    ∀ f c i, Effect.writeJson f c i ∉
      export_report "alice" "20240101_000000" Json.null "csv" :=
  (export_report_format_spec "alice" "20240101_000000" "csv" Json.null).1
    (by decide)

/-- C10: given empty language stats or an empty starred-repos list, the
chart renderers return with no effects at all, in particular no file
write. -/
theorem visualize_empty_no_write (username : String) :
    visualize_languages username [] = [] ∧ visualize_stars username [] = [] :=
  ⟨rfl, rfl⟩

/-- C3, counterexample: the claim "`generate_report` returns `None` iff
profile or repository data was never fetched" is false on the code.
Here both fetches have stored data (`isSome`), the repository list being
empty, and yet no report is produced. -/
theorem generate_report_fetched_none_claim_false :
    (some sampleUser : Option UserData).isSome = true ∧
    (some ([] : List Repo) : Option (List Repo)).isSome = true ∧
    generate_report "alice" (some sampleUser) (some []) "2024-01-01 00:00:00" =
      none :=
  ⟨rfl, rfl, rfl⟩

/-- C3, amended: `generate_report` returns `none` iff the profile data
was never fetched, or the repository data was never fetched or is the
empty list; otherwise it returns a report record. -/
theorem generate_report_none_iff (username now : String)
    (user_data : Option UserData) (repos_data : Option (List Repo)) :
    generate_report username user_data repos_data now = none ↔
      (user_data = none ∨ repos_data = none ∨ repos_data = some []) := by
  cases user_data with
  | none => simp [generate_report]
  | some u =>
      cases repos_data with
      | none => simp [generate_report]
      | some l =>
          cases l with
          | nil => simp [generate_report]
          | cons r rs => simp [generate_report]

/-- C5: in any report built by `generate_report`, an absent `name` or
`bio` key is rendered as the placeholder `"N/A"`, and the remaining
profile fields are copied from the fetched user data unchanged. -/
theorem generate_report_profile_fields (username now : String) (u : UserData)
    (repos_data : Option (List Repo)) (r : Report)
    (h : generate_report username (some u) repos_data now = some r) :
    (u.name = none → r.profile_info.name = "N/A") ∧
    (u.bio = none → r.profile_info.bio = "N/A") ∧
    r.profile_info.public_repos = u.public_repos ∧
    r.profile_info.followers = u.followers ∧
    r.profile_info.following = u.following ∧
    r.profile_info.created_at = u.created_at := by
  cases repos_data with
  | none => simp [generate_report] at h
  | some l =>
      cases l with
      | nil => simp [generate_report] at h
      | cons rp rs =>
          simp only [generate_report, Option.some.injEq] at h
          rw [← h]
          refine ⟨fun hn => ?_, fun hb => ?_, rfl, rfl, rfl, rfl⟩
          · simp [getOrNA, hn]
          · simp [getOrNA, hb]

/-- A report value used only as the `getD` default in closed witnesses. -/
def blankReport : Report :=
  { username := ""
    profile_info :=
      { name := "", bio := "", public_repos := 0, followers := 0,
        following := 0, created_at := "" }
    language_stats := []
    most_starred_repos := []
    analysis_date := "" }

/-- A fetched user whose `name` and `bio` keys are both absent. -/
def anonUser : UserData :=
  { name := none, bio := none, public_repos := 1, followers := 2,
    following := 3, created_at := "2020-06-01T00:00:00Z" }

/-- Witness for C5 on a user with absent `name` and `bio`. -/
theorem generate_report_profile_fields_wit :
    (anonUser.name = none →
      ((generate_report "bob" (some anonUser) (some [goRepo]) "d").getD
        blankReport).profile_info.name = "N/A") ∧
    (anonUser.bio = none →
      ((generate_report "bob" (some anonUser) (some [goRepo]) "d").getD
        blankReport).profile_info.bio = "N/A") ∧
    ((generate_report "bob" (some anonUser) (some [goRepo]) "d").getD
        blankReport).profile_info.public_repos = anonUser.public_repos ∧
    ((generate_report "bob" (some anonUser) (some [goRepo]) "d").getD
        blankReport).profile_info.followers = anonUser.followers ∧
    ((generate_report "bob" (some anonUser) (some [goRepo]) "d").getD
        blankReport).profile_info.following = anonUser.following ∧
    ((generate_report "bob" (some anonUser) (some [goRepo]) "d").getD
        blankReport).profile_info.created_at = anonUser.created_at :=
  generate_report_profile_fields "bob" "d" anonUser (some [goRepo])
    ((generate_report "bob" (some anonUser) (some [goRepo]) "d").getD
      blankReport) rfl

/-- C7: when the user fetch fails (non-200), `analyze` performs exactly
one HTTP request — no repository page is ever fetched — builds no
report, and returns failure. -/
theorem analyze_user_fetch_failure (username now : String) (net : Net)
    (h : net.user_resp = none) :
    (analyze username net now).success = false ∧
    (analyze username net now).report = none ∧
    (analyze username net now).effects = [Effect.httpGetUser] ∧
    ∀ p : Nat, Effect.httpGetReposPage p ∉ (analyze username net now).effects := by
  simp [analyze, fetch_user_data, h]

/-- A server whose user endpoint answers non-200 while repository pages
would be available. -/
def failNet : Net := { user_resp := none, repo_pages := [some [goRepo]] }

/-- Witness for C7 on a concrete failing server. -/
theorem analyze_user_fetch_failure_wit :
    (analyze "alice" failNet "d").success = false ∧
    (analyze "alice" failNet "d").report = none ∧
    (analyze "alice" failNet "d").effects = [Effect.httpGetUser] ∧
    ∀ p : Nat, Effect.httpGetReposPage p ∉ (analyze "alice" failNet "d").effects :=
  analyze_user_fetch_failure "alice" "d" failNet rfl

/-! ### Round-trip lemmas for the exported JSON -/

theorem statsOfFields_map (l : List (String × Nat)) :
    statsOfFields (l.map fun p => (p.1, Json.num p.2)) = some l := by
  induction l with
  | nil => rfl
  | cons p rest ih => simp [statsOfFields, Json.asNat, ih]

theorem reportReposOfJson_map (l : List ReportRepo) :
    reportReposOfJson (l.map fun rr => Json.obj
      [("name", .str rr.name), ("stars", .num rr.stars),
       ("forks", .num rr.forks), ("url", .str rr.url)]) = some l := by
  induction l with
  | nil => rfl
  | cons rr rest ih =>
      simp [reportReposOfJson, reportRepoOfJson, Json.getField, Json.asStr,
        Json.asNat, List.lookup, ih]

theorem reportOfJson_reportToJson (r : Report) :
    reportOfJson (reportToJson r) = some r := by
  obtain ⟨un, pinfo, ls, msr, ad⟩ := r
  show Option.bind (statsOfFields (ls.map fun p => (p.1, Json.num p.2))) _ = _
  rw [statsOfFields_map]
  show Option.bind (reportReposOfJson (msr.map fun rr => Json.obj
    [("name", .str rr.name), ("stars", .num rr.stars),
     ("forks", .num rr.forks), ("url", .str rr.url)])) _ = _
  rw [reportReposOfJson_map]
  rfl

/-- C8: for any report built by `generate_report`, parsing the JSON
value written by the exporter (every `writeJson` effect of
`export_report` with format `json` carries it) reproduces the same field
values, and the `language_stats` keys appear in descending-count
order. -/
theorem export_report_roundtrip (username now expname exptime : String)
    (ud : Option UserData) (rd : Option (List Repo)) (r : Report)
    (h : generate_report username ud rd now = some r) :
    (∀ f c i, Effect.writeJson f c i ∈
        export_report expname exptime (reportToJson r) "json" →
      reportOfJson c = some r) ∧
    List.Pairwise (fun a b : String × Nat => b.2 ≤ a.2) r.language_stats := by
  constructor
  · intro f c i hmem
    simp [export_report] at hmem
    obtain ⟨-, rfl, -⟩ := hmem
    exact reportOfJson_reportToJson r
  · cases ud with
    | none => simp [generate_report] at h
    | some u =>
        cases rd with
        | none => simp [generate_report] at h
        | some l =>
            cases l with
            | nil => simp [generate_report] at h
            | cons rp rs =>
                simp only [generate_report, Option.some.injEq] at h
                rw [← h]
                exact sortByCountDesc_pairwise _

/-- Witness for C8 at the worked example of the spec. -/
theorem export_report_roundtrip_wit :
    (∀ f c i, Effect.writeJson f c i ∈
        export_report "alice" "20240101_000000"
          (reportToJson
            ((generate_report "alice" (some sampleUser)
              (some [goRepo, goRepo2, rustRepo]) "d").getD blankReport)) "json" →
      reportOfJson c = some
        ((generate_report "alice" (some sampleUser)
          (some [goRepo, goRepo2, rustRepo]) "d").getD blankReport)) ∧
    List.Pairwise (fun a b : String × Nat => b.2 ≤ a.2)
      ((generate_report "alice" (some sampleUser)
        (some [goRepo, goRepo2, rustRepo]) "d").getD blankReport).language_stats :=
  export_report_roundtrip "alice" "d" "alice" "20240101_000000"
    (some sampleUser) (some [goRepo, goRepo2, rustRepo])
    ((generate_report "alice" (some sampleUser)
      (some [goRepo, goRepo2, rustRepo]) "d").getD blankReport) rfl

end GithubAnalyzer
